import Mathlib

/-!
Shallow embedding of the couscous audio core (`src/couscous/audio`):
`Clip` (clip.py), `ReadHead` (player/readhead.py) and the `Device`
playback-device setter (io/mixer.py).  Python floats are modelled as
exact rationals, Python ints as `Int`; an operation that can raise a
Python exception returns `Except PyError` (or pairs the exception with
the partially mutated object state when Python would leave in-place
mutations behind).
-/

/-- Exceptions the modelled Python code can raise. -/
inductive PyError : Type
  | valueError
  | indexError
  | zeroDivisionError
  deriving DecidableEq, Repr

/-- Result of `a % b` on Python numbers: floored modulo, raising
`ZeroDivisionError` when `b = 0`.  `fmodq a b = a - b * ⌊a / b⌋` is the
exact value Python computes (up to floating rounding). -/
def fmodq (a b : ℚ) : ℚ := a - b * ⌊a / b⌋

/-- Python `%` on rationals: `ZeroDivisionError` on a zero divisor. -/
def pymodQ (a b : ℚ) : Except PyError ℚ :=
  if b = 0 then .error .zeroDivisionError else .ok (fmodq a b)

/-- Python `%` on integers: floored modulo, `ZeroDivisionError` on zero. -/
def pymodZ (a b : ℤ) : Except PyError ℤ :=
  if b = 0 then .error .zeroDivisionError else .ok (Int.fmod a b)

/-- Python true division on numbers: `ZeroDivisionError` on zero. -/
def pydiv (a b : ℚ) : Except PyError ℚ :=
  if b = 0 then .error .zeroDivisionError else .ok (a / b)

/-- Python `int(x)` on a float: truncation toward zero (`-⌊-q⌋ = ⌈q⌉`
on the negative branch). -/
def truncInt (q : ℚ) : ℤ := if 0 ≤ q then ⌊q⌋ else -⌊-q⌋

/-- Indexing a numpy array along its first axis, `xs[i]`: `0 ≤ i <
len` reads entry `i`, `-len ≤ i < 0` reads entry `len + i` (negative
wrapping), anything else raises `IndexError`. -/
def numpyIndex {α : Type} [Inhabited α] (xs : List α) (i : ℤ) : Except PyError α :=
  if 0 ≤ i ∧ i < (xs.length : ℤ) then .ok (xs.getD i.toNat default)
  else if -(xs.length : ℤ) ≤ i ∧ i < 0 then .ok (xs.getD (xs.length - (-i).toNat) default)
  else .error .indexError

/-- An audio clip (clip.py): sample rate, channel count, per-channel
sample length and channel-major float data. -/
structure Clip : Type where
  rate : ℤ
  channels : ℤ
  length : ℤ
  data : List (List ℚ)
  deriving DecidableEq, Repr

/-- Derived `Clip.duration` property: `self.length / self.rate` (Python
true division). -/
def Clip.duration (c : Clip) : Except PyError ℚ :=
  pydiv (c.length : ℚ) (c.rate : ℚ)

/-- Method `Clip.new(channels, length)`: `numpy.zeros((channels, length))`
raises `ValueError` on a negative dimension and otherwise yields a
zero-filled `channels × length` float buffer; `rate` is set to 44100. -/
def Clip.new (channels length : ℤ) : Except PyError Clip :=
  if channels < 0 ∨ length < 0 then .error .valueError
  else .ok { rate := 44100, channels := channels, length := length,
             data := List.replicate channels.toNat (List.replicate length.toNat 0) }

/-- Method `Clip.get_channel(index)`: `self.data[index]`, numpy row
indexing (wraps negative indices in `[-channels, 0)`, raises
`IndexError` outside `[-channels, channels)`). -/
def Clip.get_channel (c : Clip) (index : ℤ) : Except PyError (List ℚ) :=
  numpyIndex c.data index

/-- A play head over one channel of a clip (player/readhead.py). -/
structure ReadHead : Type where
  frame : ℤ
  clip : Clip
  channel : ℤ
  position : ℚ
  speed : ℚ
  active : Bool
  deriving DecidableEq, Repr

/-- Constructor `ReadHead.__init__`: `channel % clip.channels` then
`position % clip.length` (either modulo raises `ZeroDivisionError` when
its divisor is zero), `frame` starts at 0. -/
def ReadHead.mk0 (clip : Clip) (channel : ℤ) (position : ℚ) (speed : ℚ)
    (active : Bool) : Except PyError ReadHead :=
  match pymodZ channel clip.channels with
  | .error e => .error e
  | .ok ch =>
    match pymodQ position (clip.length : ℚ) with
    | .error e => .error e
    | .ok p => .ok { frame := 0, clip := clip, channel := ch, position := p,
                     speed := speed, active := active }

/-- Method `ReadHead.seek(position)`: `self.position = position %
self.clip.length; return self.position`. -/
def ReadHead.seek (h : ReadHead) (position : ℚ) : Except PyError (ReadHead × ℚ) :=
  match pymodQ position (h.clip.length : ℚ) with
  | .error e => .error e
  | .ok p => .ok ({ h with position := p }, p)

/-- Modelled from the spec: the `Mixer` class imported by readhead.py is
absent from the sources; per the spec's data model it carries the output
sample `rate` and the per-render buffer `size` (frames per render call),
which is all `ReadHead.read` uses of it. -/
structure Mixer : Type where
  rate : ℤ
  size : ℤ
  deriving DecidableEq, Repr

/-- Loop body of `ReadHead.read`: iterates `n` times threading
`(position, frame, output-so-far)`; when active it reads
`data[int(position)]` (which may raise `IndexError`, stopping the loop
with the mutations made so far kept) and then advances `position` by
`step`; `frame` increments once per iteration unconditionally. -/
def readLoop (dta : List ℚ) (active : Bool) (step : ℚ) :
    ℕ → ℚ → ℤ → List ℚ → ℚ × ℤ × List ℚ × Option PyError
  | 0, pos, fr, out => (pos, fr, out, none)
  | n + 1, pos, fr, out =>
    if active then
      match numpyIndex dta (truncInt pos) with
      | .error e => (pos, fr, out, some e)
      | .ok v => readLoop dta active step n (pos + step) (fr + 1) (out ++ [v])
    else readLoop dta active step n pos (fr + 1) (out ++ [0])

/-- Packaging of the loop's final `(position, frame, output, exception)`
into the mutated head plus the call's result: on a raised exception the
in-place mutations made so far are kept and the buffer is lost. -/
def readFinish (h : ReadHead) : ℚ × ℤ × List ℚ × Option PyError → ReadHead × Except PyError (List ℚ)
  | (pos, fr, out, none) => ({ h with position := pos, frame := fr }, .ok out)
  | (pos, fr, _, some e) => ({ h with position := pos, frame := fr }, .error e)

/-- Method `ReadHead.read(mixer)`: allocates `numpy.zeros(mixer.size)`
(ValueError on a negative size), computes `step = speed * clip.rate /
mixer.rate` (ZeroDivisionError when `mixer.rate == 0`), fetches the
channel row, then runs the per-sample loop.  Returns the head as left
after the call (Python mutates it in place, so partial mutations
survive a raised exception) together with either the filled buffer or
the exception. -/
def ReadHead.read (h : ReadHead) (m : Mixer) : ReadHead × Except PyError (List ℚ) :=
  if m.size < 0 then (h, .error .valueError)
  else if (m.rate : ℚ) = 0 then (h, .error .zeroDivisionError)
  else
    match h.clip.get_channel h.channel with
    | .error e => (h, .error e)
    | .ok dta =>
      readFinish h (readLoop dta h.active (h.speed * (h.clip.rate : ℚ) / (m.rate : ℚ))
        m.size.toNat h.position h.frame [])

/-- Capabilities reported by `sounddevice.query_devices(identifier)` for
one device (the external capability collaborator). -/
structure DeviceInfo : Type where
  maxOutputChannels : ℤ
  maxInputChannels : ℤ
  deriving DecidableEq, Repr

/-- Mutable state of a `Device` (io/mixer.py) as far as the `device`
setter can touch it: the stored `_device`, the `duplex` flag, and
whether a stream has been opened. -/
structure DeviceState : Type where
  device : ℤ
  duplex : Bool
  streamOpen : Bool
  deriving DecidableEq, Repr

/-- Outcome of one call to the `Device.device` setter, carrying the
object state as Python leaves it (in-place mutations survive a raised
exception): a normal return, a raised `ValueError`, or a blown
recursion limit (`RecursionError`). -/
inductive SetOutcome : Type
  | ok (st : DeviceState)
  | valueError (st : DeviceState)
  | recursionError (st : DeviceState)
  deriving DecidableEq, Repr

/-- State carried by a `SetOutcome`. -/
def SetOutcome.state : SetOutcome → DeviceState
  | .ok st => st
  | .valueError st => st
  | .recursionError st => st

/-- Whether a `SetOutcome` is a normal return. -/
def SetOutcome.isOk : SetOutcome → Bool
  | .ok _ => true
  | _ => false

/-- Python `identifier or 0` on an integer identifier: the identifier
when truthy, else `0` (so the identity on integers). -/
def pyOr (i : ℤ) : ℤ := if i = 0 then 0 else i

/-- Setter `Device.device` (io/mixer.py): queries the device's
capabilities; with `max_output_channels > 0` it sets `duplex` and then
executes `self.device = identifier or 0`, which re-invokes this very
setter (the recursion Python cuts off with `RecursionError`, modelled
by the fuel argument); otherwise it raises `ValueError`.  `_device` is
never written on any path. -/
def deviceSetter (query : ℤ → DeviceInfo) : ℕ → DeviceState → ℤ → SetOutcome
  | 0, st, _ => .recursionError st
  | fuel + 1, st, identifier =>
    let info := query identifier
    if 0 < info.maxOutputChannels then
      deviceSetter query fuel { st with duplex := 0 < info.maxInputChannels } (pyOr identifier)
    else .valueError st

/-! Concrete scenario data used by claim theorems and witnesses. -/

/-- Scenario head for C1: clip data `[0,1,2,3]` at rate 4 and length 4,
active head at position 0 with speed 1. -/
def c1Head : ReadHead :=
  { frame := 0, clip := { rate := 4, channels := 1, length := 4, data := [[0, 1, 2, 3]] },
    channel := 0, position := 0, speed := 1, active := true }

/-- Mixer for the C1 scenario: rate 4, size 4. -/
def c1Mixer : Mixer := { rate := 4, size := 4 }

/-- Scenario head for C2 (end-to-end scenario A). -/
def c2Head : ReadHead :=
  { frame := 0, clip := { rate := 4, channels := 1, length := 4, data := [[0, 1, 2, 3]] },
    channel := 0, position := 0, speed := 1, active := true }

/-- Mixer for the C2 scenario: rate 4, size 4. -/
def c2Mixer : Mixer := { rate := 4, size := 4 }

/-- Two-channel clip for C3, rows `[1]` and `[2]`. -/
def c3Clip : Clip := { rate := 44100, channels := 2, length := 1, data := [[1], [2]] }

/-- Inactive head for the C4 witness, with nonzero frame and position. -/
def c4Head : ReadHead :=
  { frame := 5, clip := { rate := 4, channels := 1, length := 4, data := [[0, 1, 2, 3]] },
    channel := 0, position := 2, speed := 1, active := false }

/-- Mixer for the C4 witness: rate 4, size 3. -/
def c4Mixer : Mixer := { rate := 4, size := 3 }

/-- Head for the C5 witness, bound to a clip of length 4. -/
def c5Head : ReadHead :=
  { frame := 2, clip := { rate := 4, channels := 1, length := 4, data := [[0, 1, 2, 3]] },
    channel := 0, position := 1, speed := 1, active := true }

/-- Capability collaborator for the C6 witness: every device reports
zero output channels. -/
def c6Query : ℤ → DeviceInfo := fun _ => { maxOutputChannels := 0, maxInputChannels := 2 }

/-- Starting device state for the C6 witness. -/
def c6State : DeviceState := { device := 7, duplex := true, streamOpen := false }

/-- Active head for the C8 counterexample: clip of length 1, and a step
of 4 that runs the read position out of bounds after one sample. -/
def c8Head : ReadHead :=
  { frame := 0, clip := { rate := 4, channels := 1, length := 1, data := [[5]] },
    channel := 0, position := 0, speed := 1, active := true }

/-- Mixer for the C8 counterexample: rate 1, size 2 (so step `= 4`). -/
def c8Mixer : Mixer := { rate := 1, size := 2 }

/-- Inactive head for the C8 witness. -/
def c8WHead : ReadHead :=
  { frame := 0, clip := { rate := 4, channels := 1, length := 4, data := [[0, 1, 2, 3]] },
    channel := 0, position := 0, speed := 1, active := false }

/-- Mixer for the C8 witness: rate 4, size 2. -/
def c8WMixer : Mixer := { rate := 4, size := 2 }

/-- Capability collaborator for the C10 witness: every device reports
two output channels and one input channel. -/
def c10Query : ℤ → DeviceInfo := fun _ => { maxOutputChannels := 2, maxInputChannels := 1 }

/-- Starting device state for the C10 witness. -/
def c10State : DeviceState := { device := 3, duplex := false, streamOpen := false }

/-! General lemmas about the `read` loop. -/

/-- With the head inactive, the loop leaves the position alone, adds
`n` to the frame counter and appends `n` zeros to the output. -/
theorem readLoop_inactive (dta : List ℚ) (step : ℚ) :
    ∀ (n : ℕ) (pos : ℚ) (fr : ℤ) (out : List ℚ),
      readLoop dta false step n pos fr out = (pos, fr + n, out ++ List.replicate n 0, none)
  | 0, pos, fr, out => by simp [readLoop]
  | n + 1, pos, fr, out => by
    rw [readLoop, if_neg (by simp), readLoop_inactive dta step n]
    have hfr : fr + 1 + (n : ℤ) = fr + ((n + 1 : ℕ) : ℤ) := by push_cast; ring
    have hout : out ++ [0] ++ List.replicate n (0 : ℚ) = out ++ List.replicate (n + 1) (0 : ℚ) := by
      simp [List.replicate_succ, List.append_assoc]
    rw [hfr, hout]

/-- With the head active, a loop run that finishes without an exception
advances the position by exactly `n * step` and the frame by `n`. -/
theorem readLoop_active_ok (dta : List ℚ) (step : ℚ) :
    ∀ (n : ℕ) (pos : ℚ) (fr : ℤ) (out outAll : List ℚ) (pos' : ℚ) (fr' : ℤ),
      readLoop dta true step n pos fr out = (pos', fr', outAll, none) →
      pos' = pos + n * step ∧ fr' = fr + n
  | 0, pos, fr, out, outAll, pos', fr' => by
    simp only [readLoop, Prod.mk.injEq]
    rintro ⟨h1, h2, -, -⟩
    simp [← h1, ← h2]
  | n + 1, pos, fr, out, outAll, pos', fr' => by
    rw [readLoop, if_pos rfl]
    rcases hidx : numpyIndex dta (truncInt pos) with e | v
    · simp
    · intro h
      obtain ⟨h1, h2⟩ := readLoop_active_ok dta step n _ _ _ _ _ _ h
      constructor
      · rw [h1]; push_cast; ring
      · rw [h2]; push_cast; ring

/-- In every run of the loop, active or not, finishing or raising, the
final frame counter exceeds the starting one by at most `n`, and never
decreases. -/
theorem readLoop_frame_bounds (dta : List ℚ) (active : Bool) (step : ℚ) :
    ∀ (n : ℕ) (pos : ℚ) (fr : ℤ) (out : List ℚ),
      fr ≤ (readLoop dta active step n pos fr out).2.1 ∧
      (readLoop dta active step n pos fr out).2.1 ≤ fr + n
  | 0, pos, fr, out => by simp [readLoop]
  | n + 1, pos, fr, out => by
    rw [readLoop]
    rcases active with _ | _
    · rw [if_neg (by simp)]
      obtain ⟨h1, h2⟩ := readLoop_frame_bounds dta false step n pos (fr + 1) (out ++ [0])
      constructor
      · exact le_trans (by omega) h1
      · refine le_trans h2 (by push_cast; omega)
    · rw [if_pos rfl]
      rcases hidx : numpyIndex dta (truncInt pos) with e | v
      · simp; omega
      · obtain ⟨h1, h2⟩ :=
          readLoop_frame_bounds dta true step n (pos + step) (fr + 1) (out ++ [v])
        constructor
        · exact le_trans (by omega) h1
        · refine le_trans h2 (by push_cast; omega)

/-- Floored modulo with a positive divisor is nonnegative. -/
theorem fmodq_nonneg (a b : ℚ) (hb : 0 < b) : 0 ≤ fmodq a b := by
  have h1 : ((⌊a / b⌋ : ℚ)) ≤ a / b := Int.floor_le (a / b)
  have h2 : ((⌊a / b⌋ : ℚ)) * b ≤ a := (le_div_iff₀ hb).mp h1
  rw [fmodq]
  linarith

/-- Floored modulo with a positive divisor stays below the divisor. -/
theorem fmodq_lt (a b : ℚ) (hb : 0 < b) : fmodq a b < b := by
  have h1 : a / b < (⌊a / b⌋ : ℚ) + 1 := Int.lt_floor_add_one (a / b)
  have h2 : a < ((⌊a / b⌋ : ℚ) + 1) * b := (div_lt_iff₀ hb).mp h1
  rw [fmodq]
  linarith

/-- A run of the loop that finishes without an exception adds exactly
`n` to the frame counter, whether the head is active or not. -/
theorem readLoop_none_frame (dta : List ℚ) (active : Bool) (step : ℚ) :
    ∀ (n : ℕ) (pos : ℚ) (fr : ℤ) (out outAll : List ℚ) (pos' : ℚ) (fr' : ℤ),
      readLoop dta active step n pos fr out = (pos', fr', outAll, none) → fr' = fr + n
  | 0, pos, fr, out, outAll, pos', fr' => by
    simp only [readLoop, Prod.mk.injEq]
    rintro ⟨-, h2, -, -⟩
    simp [← h2]
  | n + 1, pos, fr, out, outAll, pos', fr' => by
    rw [readLoop]
    rcases active with _ | _
    · rw [if_neg (by simp)]
      intro h
      have := readLoop_none_frame dta false step n _ _ _ _ _ _ h
      rw [this]; push_cast; ring
    · rw [if_pos rfl]
      rcases hidx : numpyIndex dta (truncInt pos) with e | v
      · simp
      · intro h
        have := readLoop_none_frame dta true step n _ _ _ _ _ _ h
        rw [this]; push_cast; ring

/-- Unfolding of `ReadHead.read` once both guards pass and the channel
row resolves. -/
theorem read_run (h : ReadHead) (m : Mixer) (hsz : ¬m.size < 0)
    (hrq : ¬(m.rate : ℚ) = 0) (dta : List ℚ)
    (hch : h.clip.get_channel h.channel = .ok dta) :
    ReadHead.read h m
      = readFinish h (readLoop dta h.active (h.speed * (h.clip.rate : ℚ) / (m.rate : ℚ))
          m.size.toNat h.position h.frame []) := by
  simp only [ReadHead.read, if_neg hsz, if_neg hrq, hch]

/-! Claim theorems. -/

/-- C1: the claimed position-advance law fails on the code: with
`p0 = 0, s = 1, cr = mr = 4, n = 4, L = 4` the head ends at position 4,
while `(p0 + n * s * cr / mr) mod L = 0`, and 4 does not lie in
`[0, 4)` — `ReadHead.read` never re-normalizes the position. -/
theorem c1_counterexample :
    (ReadHead.read c1Head c1Mixer).1.position = 4
    ∧ fmodq (0 + 4 * (1 * 4 / 4)) 4 = 0
    ∧ (4 : ℚ) ≠ 0 ∧ ¬((4 : ℚ) < 4) := by
  refine ⟨?_, by norm_num [fmodq], by norm_num, by norm_num⟩
  norm_num [c1Head, c1Mixer, ReadHead.read, readFinish, readLoop, numpyIndex, truncInt,
    Clip.get_channel, Int.toNat]

/-- C1 (amended): for an Active head bound to a clip, a `read` call of
size `n` that returns normally leaves the position at exactly
`p0 + n * s * cr / mr`; no modulo is applied, so the final position can
lie outside `[0, length)`. -/
theorem c1_position_advance_amended (h : ReadHead) (m : Mixer) (out : List ℚ)
    (hact : h.active = true) (hok : (ReadHead.read h m).2 = .ok out) :
    (ReadHead.read h m).1.position
      = h.position + (m.size : ℚ) * (h.speed * (h.clip.rate : ℚ) / (m.rate : ℚ)) := by
  by_cases hsz : m.size < 0
  · simp [ReadHead.read, hsz] at hok
  · by_cases hrq : (m.rate : ℚ) = 0
    · simp [ReadHead.read, hsz, hrq] at hok
    · rcases hch : h.clip.get_channel h.channel with e | dta
      · simp [ReadHead.read, hsz, hrq, hch] at hok
      · rcases hr : readLoop dta h.active (h.speed * (h.clip.rate : ℚ) / (m.rate : ℚ))
            m.size.toNat h.position h.frame [] with ⟨pos, fr, outl, err⟩
        have hread : ReadHead.read h m = readFinish h (pos, fr, outl, err) := by
          rw [read_run h m hsz hrq dta hch, hr]
        rcases err with _ | e
        · rw [hread]
          rw [hact] at hr
          obtain ⟨h1, -⟩ := readLoop_active_ok dta _ _ _ _ _ _ _ _ hr
          have hcast : ((m.size.toNat : ℕ) : ℚ) = (m.size : ℚ) := by
            exact_mod_cast Int.toNat_of_nonneg (not_lt.mp hsz)
          simp only [readFinish]
          rw [h1, hcast]
        · rw [hread] at hok
          simp [readFinish] at hok

/-- Witness for the amended C1 at the concrete scenario: the call
returns normally and the position lands on `0 + 4 * (1 * 4 / 4)`. -/
theorem c1_position_advance_amended_witness :
    c1Head.active = true
    ∧ (ReadHead.read c1Head c1Mixer).2 = .ok [0, 1, 2, 3]
    ∧ (ReadHead.read c1Head c1Mixer).1.position
        = c1Head.position + (c1Mixer.size : ℚ)
            * (c1Head.speed * (c1Head.clip.rate : ℚ) / (c1Mixer.rate : ℚ)) := by
  have hok : (ReadHead.read c1Head c1Mixer).2 = .ok [0, 1, 2, 3] := by
    norm_num [c1Head, c1Mixer, ReadHead.read, readFinish, readLoop, numpyIndex, truncInt,
      Clip.get_channel, Int.toNat]
  exact ⟨rfl, hok, c1_position_advance_amended c1Head c1Mixer [0, 1, 2, 3] rfl hok⟩

/-- C2: scenario A as claimed fails on the final position: the buffer
is indeed `[0,1,2,3]` but the head ends at position 4, not 0 (the code
performs no modulo wrap during `read`). -/
theorem c2_counterexample :
    (ReadHead.read c2Head c2Mixer).2 = .ok [0, 1, 2, 3]
    ∧ (ReadHead.read c2Head c2Mixer).1.position = 4
    ∧ (4 : ℚ) ≠ 0 := by
  refine ⟨?_, ?_, by norm_num⟩ <;>
    norm_num [c2Head, c2Mixer, ReadHead.read, readFinish, readLoop, numpyIndex, truncInt,
      Clip.get_channel, Int.toNat]

/-- C2 (amended): scenario A returns the buffer `[0,1,2,3]` and leaves
the head's position at 4 (un-normalized), not 0. -/
theorem c2_scenarioA_amended :
    (ReadHead.read c2Head c2Mixer).2 = .ok [0, 1, 2, 3]
    ∧ (ReadHead.read c2Head c2Mixer).1.position = 4 := by
  constructor <;>
    norm_num [c2Head, c2Mixer, ReadHead.read, readFinish, readLoop, numpyIndex, truncInt,
      Clip.get_channel, Int.toNat]

/-- C3: a negative channel index does not raise: `get_channel (-1)` on a
two-channel clip returns row 1 (numpy negative wrapping), contradicting
the claim that every out-of-range index — including every negative
one — raises `IndexError`. -/
theorem c3_counterexample :
    Clip.get_channel c3Clip (-1) = .ok [2]
    ∧ Clip.get_channel c3Clip (-1) ≠ .error .indexError
    ∧ (-1 : ℤ) < 0 := by
  have h : Clip.get_channel c3Clip (-1) = .ok [2] := by
    norm_num [c3Clip, Clip.get_channel, numpyIndex, Int.toNat]
  refine ⟨h, ?_, by norm_num⟩
  rw [h]
  intro hcon
  exact Except.noConfusion hcon

/-- C3 (amended): `get_channel i` returns row `i` exactly for
`0 ≤ i < channels`; for `-channels ≤ i < 0` it returns row
`channels + i` (numpy negative wrapping) instead of raising, and it
raises `IndexError` exactly for indices outside `[-channels, channels)`. -/
theorem c3_channel_bounds_amended (c : Clip) (i : ℤ)
    (hlen : (c.data.length : ℤ) = c.channels) (hc : 1 ≤ c.channels) :
    (0 ≤ i → i < c.channels → Clip.get_channel c i = .ok (c.data.getD i.toNat []))
    ∧ (-c.channels ≤ i → i < 0 →
        Clip.get_channel c i = .ok (c.data.getD (c.data.length - (-i).toNat) []))
    ∧ ((i < -c.channels ∨ c.channels ≤ i) → Clip.get_channel c i = .error .indexError) := by
  refine ⟨?_, ?_, ?_⟩
  · intro h0 h1
    unfold Clip.get_channel numpyIndex
    rw [if_pos ⟨h0, by omega⟩]
    rfl
  · intro h0 h1
    unfold Clip.get_channel numpyIndex
    rw [if_neg (by omega), if_pos ⟨by omega, h1⟩]
    rfl
  · intro h0
    unfold Clip.get_channel numpyIndex
    rw [if_neg (by omega), if_neg (by omega)]

/-- Witness for the amended C3 at the concrete two-channel clip and the
in-range index 1. -/
theorem c3_channel_bounds_amended_witness :
    ((c3Clip.data.length : ℤ) = c3Clip.channels ∧ (1 : ℤ) ≤ c3Clip.channels)
    ∧ Clip.get_channel c3Clip 1 = .ok (c3Clip.data.getD (1 : ℤ).toNat []) := by
  refine ⟨⟨by norm_num [c3Clip], by norm_num [c3Clip]⟩, ?_⟩
  exact (c3_channel_bounds_amended c3Clip 1 (by norm_num [c3Clip]) (by norm_num [c3Clip])).1
    (by norm_num) (by norm_num [c3Clip])

/-- C4: a `read` call on an Inactive head (with a valid channel, a
nonnegative buffer size and a nonzero mixer rate) returns a buffer of
`mixer.size` zeros and changes no field except `frame`, which grows by
`mixer.size`. -/
theorem c4_inactive_invariance (h : ReadHead) (m : Mixer)
    (hact : h.active = false) (hsz : 0 ≤ m.size) (hrate : (m.rate : ℚ) ≠ 0)
    (hch0 : 0 ≤ h.channel) (hch1 : h.channel < (h.clip.data.length : ℤ)) :
    ReadHead.read h m
      = ({ h with frame := h.frame + m.size }, .ok (List.replicate m.size.toNat 0)) := by
  have hch : h.clip.get_channel h.channel = .ok (h.clip.data.getD h.channel.toNat default) := by
    unfold Clip.get_channel numpyIndex
    rw [if_pos ⟨hch0, hch1⟩]
  rw [read_run h m (not_lt.mpr hsz) hrate _ hch, hact, readLoop_inactive]
  simp [readFinish, Prod.ext_iff, ReadHead.mk.injEq, Int.toNat_of_nonneg hsz, hact]

/-- Witness for C4 at a concrete inactive head: frame 5 grows to 8, the
rest of the head is untouched, and the buffer is three zeros. -/
theorem c4_inactive_invariance_witness :
    (c4Head.active = false ∧ 0 ≤ c4Mixer.size ∧ (c4Mixer.rate : ℚ) ≠ 0
      ∧ 0 ≤ c4Head.channel ∧ c4Head.channel < (c4Head.clip.data.length : ℤ))
    ∧ ReadHead.read c4Head c4Mixer
        = ({ c4Head with frame := c4Head.frame + c4Mixer.size },
           .ok (List.replicate c4Mixer.size.toNat 0)) := by
  refine ⟨⟨rfl, by norm_num [c4Mixer], by norm_num [c4Mixer], by norm_num [c4Head],
    by norm_num [c4Head]⟩, ?_⟩
  exact c4_inactive_invariance c4Head c4Mixer rfl (by norm_num [c4Mixer])
    (by norm_num [c4Mixer]) (by norm_num [c4Head]) (by norm_num [c4Head])

/-- C5: on a clip of positive length, `seek p` stores `p mod length`,
returns that value, the value lies in `[0, length)`, and no other field
of the head changes. -/
theorem c5_seek_normalizes (h : ReadHead) (p : ℚ) (hl : 0 < h.clip.length) :
    ReadHead.seek h p
        = .ok ({ h with position := fmodq p (h.clip.length : ℚ) },
               fmodq p (h.clip.length : ℚ))
    ∧ 0 ≤ fmodq p (h.clip.length : ℚ)
    ∧ fmodq p (h.clip.length : ℚ) < (h.clip.length : ℚ) := by
  have hlq : (0 : ℚ) < (h.clip.length : ℚ) := by exact_mod_cast hl
  refine ⟨?_, fmodq_nonneg _ _ hlq, fmodq_lt _ _ hlq⟩
  unfold ReadHead.seek pymodQ
  rw [if_neg (ne_of_gt hlq)]

/-- Witness for C5: seeking to -3 on a length-4 clip lands on
`(-3) mod 4` with the bounds holding. -/
theorem c5_seek_normalizes_witness :
    0 < c5Head.clip.length
    ∧ (ReadHead.seek c5Head (-3)
          = .ok ({ c5Head with position := fmodq (-3) (c5Head.clip.length : ℚ) },
                 fmodq (-3) (c5Head.clip.length : ℚ))
        ∧ 0 ≤ fmodq (-3) (c5Head.clip.length : ℚ)
        ∧ fmodq (-3) (c5Head.clip.length : ℚ) < (c5Head.clip.length : ℚ)) :=
  ⟨by norm_num [c5Head], c5_seek_normalizes c5Head (-3) (by norm_num [c5Head])⟩

/-- C6: when the queried device reports zero output channels, the
`device` setter raises `ValueError` immediately and the whole device
state — stored device, duplex flag, and stream — is exactly as before
the call; in particular no stream is opened. -/
theorem c6_device_guard (query : ℤ → DeviceInfo) (fuel : ℕ) (st : DeviceState)
    (identifier : ℤ) (hq : (query identifier).maxOutputChannels = 0) :
    deviceSetter query (fuel + 1) st identifier = .valueError st := by
  simp only [deviceSetter]
  rw [if_neg (by simp [hq])]

/-- Witness for C6: under a collaborator reporting zero output
channels, assignment raises and leaves the state untouched. -/
theorem c6_device_guard_witness :
    (c6Query 3).maxOutputChannels = 0
    ∧ deviceSetter c6Query 1 c6State 3 = .valueError c6State :=
  ⟨rfl, c6_device_guard c6Query 0 c6State 3 rfl⟩

/-- C7: `Clip.new` does not fail on every non-positive dimension:
`new 2 0` — with the non-positive length 0 — succeeds, yielding an
empty two-channel buffer. -/
theorem c7_counterexample :
    Clip.new 2 0 = .ok { rate := 44100, channels := 2, length := 0, data := [[], []] }
    ∧ (0 : ℤ) ≤ 0 := by
  refine ⟨?_, le_refl 0⟩
  rw [Clip.new, if_neg (by norm_num)]
  norm_num [Int.toNat, List.replicate]

/-- C7 (amended): `Clip.new` fails (with `ValueError`, from
`numpy.zeros`) exactly when a dimension is negative — zero dimensions
are accepted — and on positive dimensions yields the all-zero
`channels × length` buffer at rate 44100 with duration
`length / 44100`. -/
theorem c7_new_clip_amended (channels length : ℤ) :
    (Clip.new channels length = .error .valueError ↔ channels < 0 ∨ length < 0)
    ∧ (0 < channels → 0 < length →
        Clip.new channels length
            = .ok { rate := 44100, channels := channels, length := length,
                    data := List.replicate channels.toNat (List.replicate length.toNat 0) }
          ∧ Clip.duration
                { rate := 44100, channels := channels, length := length,
                  data := List.replicate channels.toNat (List.replicate length.toNat 0) }
              = .ok ((length : ℚ) / 44100)) := by
  constructor
  · rw [Clip.new]
    by_cases hcond : channels < 0 ∨ length < 0
    · rw [if_pos hcond]; simp [hcond]
    · rw [if_neg hcond]; simp [hcond]
  · intro hc hl
    constructor
    · rw [Clip.new, if_neg (by omega)]
    · norm_num [Clip.duration, pydiv]

/-- Witness for the amended C7 at `new 2 100`. -/
theorem c7_new_clip_amended_witness :
    ((0 : ℤ) < 2 ∧ (0 : ℤ) < 100)
    ∧ ((Clip.new 2 100 = .error .valueError ↔ (2 : ℤ) < 0 ∨ (100 : ℤ) < 0)
        ∧ (Clip.new 2 100
              = .ok { rate := 44100, channels := 2, length := 100,
                      data := List.replicate (2 : ℤ).toNat (List.replicate (100 : ℤ).toNat 0) }
            ∧ Clip.duration
                  { rate := 44100, channels := 2, length := 100,
                    data := List.replicate (2 : ℤ).toNat (List.replicate (100 : ℤ).toNat 0) }
                = .ok (((100 : ℤ) : ℚ) / 44100))) :=
  ⟨⟨by norm_num, by norm_num⟩,
   (c7_new_clip_amended 2 100).1,
   (c7_new_clip_amended 2 100).2 (by norm_num) (by norm_num)⟩

/-- C8: a `read` call that raises does not add `mixer.size` to `frame`:
on a length-1 clip with step 4 and size 2, the second iteration raises
`IndexError` and `frame` has grown by only 1, not 2. -/
theorem c8_counterexample :
    (ReadHead.read c8Head c8Mixer).1.frame = 1
    ∧ (ReadHead.read c8Head c8Mixer).2 = .error .indexError
    ∧ (1 : ℤ) ≠ 0 + 2 := by
  refine ⟨?_, ?_, by norm_num⟩ <;>
    norm_num [c8Head, c8Mixer, ReadHead.read, readFinish, readLoop, numpyIndex, truncInt,
      Clip.get_channel, Int.toNat]

/-- C8 (amended): `frame` never decreases across a `read` call, and a
call that returns normally adds exactly `mixer.size` to it, active or
not; a call that raises adds only the number of completed iterations. -/
theorem c8_frame_amended (h : ReadHead) (m : Mixer) (out : List ℚ) :
    h.frame ≤ (ReadHead.read h m).1.frame
    ∧ ((ReadHead.read h m).2 = .ok out → (ReadHead.read h m).1.frame = h.frame + m.size) := by
  by_cases hsz : m.size < 0
  · refine ⟨by simp [ReadHead.read, hsz], ?_⟩
    intro hok; simp [ReadHead.read, hsz] at hok
  · by_cases hrq : (m.rate : ℚ) = 0
    · refine ⟨by simp [ReadHead.read, hsz, hrq], ?_⟩
      intro hok; simp [ReadHead.read, hsz, hrq] at hok
    · rcases hch : h.clip.get_channel h.channel with e | dta
      · refine ⟨by simp [ReadHead.read, hsz, hrq, hch], ?_⟩
        intro hok; simp [ReadHead.read, hsz, hrq, hch] at hok
      · rcases hr : readLoop dta h.active (h.speed * (h.clip.rate : ℚ) / (m.rate : ℚ))
            m.size.toNat h.position h.frame [] with ⟨pos, fr, outl, err⟩
        have hread : ReadHead.read h m = readFinish h (pos, fr, outl, err) := by
          rw [read_run h m hsz hrq dta hch, hr]
        have hmono := readLoop_frame_bounds dta h.active
          (h.speed * (h.clip.rate : ℚ) / (m.rate : ℚ)) m.size.toNat h.position h.frame []
        rw [hr] at hmono
        rcases err with _ | e
        · have hfr : fr = h.frame + m.size.toNat :=
            readLoop_none_frame dta h.active _ _ _ _ _ _ _ _ hr
          constructor
          · rw [hread]; exact hmono.1
          · intro _
            rw [hread]
            simp only [readFinish]
            rw [hfr, Int.toNat_of_nonneg (not_lt.mp hsz)]
        · constructor
          · rw [hread]; exact hmono.1
          · intro hok
            rw [hread] at hok
            simp [readFinish] at hok

/-- Witness for the amended C8: an inactive read of size 2 returns
normally and adds exactly 2 to the frame counter. -/
theorem c8_frame_amended_witness :
    c8WHead.frame ≤ (ReadHead.read c8WHead c8WMixer).1.frame
    ∧ (ReadHead.read c8WHead c8WMixer).1.frame = c8WHead.frame + c8WMixer.size := by
  refine ⟨(c8_frame_amended c8WHead c8WMixer [0, 0]).1, ?_⟩
  exact (c8_frame_amended c8WHead c8WMixer [0, 0]).2 (by
    norm_num [c8WHead, c8WMixer, ReadHead.read, readFinish, readLoop, numpyIndex, truncInt,
      Clip.get_channel, Int.toNat])

/-- C9: `Clip.new 2 0` succeeds (no zero-length guard exists), and both
constructing a `ReadHead` on the resulting zero-length clip and seeking
on such a head raise `ZeroDivisionError` from the normalizing modulo. -/
theorem c9_zero_length_clip :
    Clip.new 2 0 = .ok { rate := 44100, channels := 2, length := 0, data := [[], []] }
    ∧ ReadHead.mk0 { rate := 44100, channels := 2, length := 0, data := [[], []] } 0 0 1 true
        = .error .zeroDivisionError
    ∧ ReadHead.seek
        { frame := 0, clip := { rate := 44100, channels := 2, length := 0, data := [[], []] },
          channel := 0, position := 0, speed := 1, active := true } 5
        = .error .zeroDivisionError := by
  refine ⟨?_, ?_, ?_⟩
  · rw [Clip.new, if_neg (by norm_num)]
    norm_num [Int.toNat, List.replicate]
  · norm_num [ReadHead.mk0, pymodZ, pymodQ]
  · norm_num [ReadHead.seek, pymodQ]

/-- The `Device.device` setter can never return normally and never
writes the stored `_device` field, whatever the collaborator reports
and however much recursion depth is available. -/
theorem deviceSetter_no_ok (query : ℤ → DeviceInfo) :
    ∀ (fuel : ℕ) (st : DeviceState) (identifier : ℤ),
      (deviceSetter query fuel st identifier).isOk = false
      ∧ (deviceSetter query fuel st identifier).state.device = st.device
  | 0, st, identifier => by
    simp [deviceSetter, SetOutcome.isOk, SetOutcome.state]
  | fuel + 1, st, identifier => by
    simp only [deviceSetter]
    by_cases hq : 0 < (query identifier).maxOutputChannels
    · rw [if_pos hq]
      exact deviceSetter_no_ok query fuel _ _
    · rw [if_neg hq]
      simp [SetOutcome.isOk, SetOutcome.state]

/-- C10: when the queried device reports at least one output channel,
the setter still never terminates normally (its success path re-invokes
itself unboundedly, ending in `RecursionError` or a raised `ValueError`
deeper in) and never stores the identifier in `_device`. -/
theorem c10_setter_no_normal_return (query : ℤ → DeviceInfo) (fuel : ℕ)
    (st : DeviceState) (identifier : ℤ)
    (_hq : 0 < (query identifier).maxOutputChannels) :
    (deviceSetter query fuel st identifier).isOk = false
    ∧ (deviceSetter query fuel st identifier).state.device = st.device :=
  deviceSetter_no_ok query fuel st identifier

/-- Witness for C10: a collaborator reporting two output channels, three
levels of fuel — the setter does not return normally and `_device`
still holds its old value. -/
theorem c10_setter_no_normal_return_witness :
    0 < (c10Query 5).maxOutputChannels
    ∧ ((deviceSetter c10Query 3 c10State 5).isOk = false
        ∧ (deviceSetter c10Query 3 c10State 5).state.device = c10State.device) :=
  ⟨by norm_num [c10Query], c10_setter_no_normal_return c10Query 3 c10State 5
    (by norm_num [c10Query])⟩
